import Mathlib

/-!
Verification of the Orçamento budget-explorer repository.

The repository's `src/` tree contains the Next.js presentation layer
(document dashboard, category listing, item detail pages).  The backend
pipeline components (Item Validator, Job Orchestrator, Aggregator) are
referenced by the frontend through HTTP endpoints; where a claim depends
on them, the corresponding definitions below are modelled from the spec
and marked as such in their doc comments.

Numbers are modelled as rationals (`ℚ`), nullable numbers as `Option ℚ`,
and strings as Lean `String`s.
-/

namespace Orcamento

/-- A budget line item as exposed by the API and consumed by the frontend
(`interface BudgetItem` in `src/frontend/app/items/[id]/page.tsx`). -/
structure BudgetItem where
  id : String
  document_id : String
  year : Int
  side : String
  category : String
  description_original : String
  value : Option ℚ
  unit : String
  page_number : Nat
  evidence_text : String
  explanation : String
deriving DecidableEq

/-- A page of raw extracted text (spec §3: page number 1-based, unique per
document, raw extracted text). -/
structure Page where
  page_number : Nat
  text : String
deriving DecidableEq

/-- An import job as exposed by the API (`interface ImportJob` in
`src/unnamed/part_001`). -/
structure ImportJob where
  id : String
  status : String
  progress : Nat
  error_message : Option String
deriving DecidableEq

/-- A per-category summary row of the Aggregator output
(`interface CategorySummary` in `src/unnamed/part_001`). -/
structure CategorySummary where
  category : String
  total_value : ℚ
  item_count : Nat
deriving DecidableEq

/-- The Aggregator summary of a document
(`interface DocumentSummary` in `src/unnamed/part_001`). -/
structure DocumentSummary where
  document_id : String
  year : Int
  revenue_total : ℚ
  expense_total : ℚ
  revenue_by_category : List CategorySummary
  expense_by_category : List CategorySummary

/-- Side label shown next to an item, from `getSideLabel` in
`src/unnamed/part_001` and `src/frontend/app/items/[id]/page.tsx`:
`side === 'REVENUE' ? 'RECEITA' : 'DESPESA'`. -/
def getSideLabel (side : String) : String :=
  if side = "REVENUE" then "RECEITA" else "DESPESA"

/-- Decimal digit character. -/
def digitChar (n : Nat) : Char := Char.ofNat (48 + n % 10)

/-- Decimal digits of a natural number, least significant first,
bounded by a fuel argument. -/
def digitsRevAux : Nat → Nat → List Char
  | 0, _ => []
  | _ + 1, 0 => []
  | fuel + 1, n => digitChar (n % 10) :: digitsRevAux fuel (n / 10)

/-- Decimal digits of a natural number, least significant first. -/
def natDigitsRev (n : Nat) : List Char :=
  if n = 0 then ['0'] else digitsRevAux n n

/-- Insert a thousands separator after every three digits
(digits given least significant first). -/
def group3 : List Char → List Char
  | a :: b :: c :: d :: rest => a :: b :: c :: ' ' :: group3 (d :: rest)
  | l => l

/-- Model of `Intl.NumberFormat('pt-PT', currency EUR, 0 fraction digits)`
as used by `formatCurrency` in both frontend pages: the value is rounded
to an integer and rendered with thousands grouping followed by the euro
sign. -/
def eurChars (v : ℚ) : List Char :=
  (if round v < 0 then ['-'] else [])
    ++ (group3 (natDigitsRev (round v).natAbs)).reverse ++ [' ', '€']

/-- Euro rendering of a numeric value. -/
def formatEUR (v : ℚ) : String := ⟨eurChars v⟩

/-- Monetary rendering from `formatCurrency` in
`src/frontend/app/items/[id]/page.tsx` (lines 48-56) and
`src/frontend/app/documents/[id]/category/[category]/page.tsx`
(lines 53-62): a null value renders as the string `N/A`, any numeric
value (including 0) renders as a euro currency string. -/
def formatCurrency (value : Option ℚ) (unit : String) : String :=
  match value with
  | none => "N/A"
  | some v => formatEUR v

/-- Model of `Number.prototype.toFixed(1)` over rationals: the sign is
split off, the magnitude is rounded to the nearest tenth (ties to the
larger result, per ECMA-262), and rendered with one decimal digit. -/
def toFixed1 (q : ℚ) : String :=
  let n : ℤ := round (|q| * 10)
  (if q < 0 then "-" else "")
    ++ toString (n.toNat / 10) ++ "." ++ toString (n.toNat % 10)

/-- Percentage rendering from `formatPercentage` in
`src/unnamed/part_001` (lines 87-90): a zero total yields the string
`0%`, otherwise `((value / total) * 100).toFixed(1)` followed by `%`. -/
def formatPercentage (value total : ℚ) : String :=
  if total = 0 then "0%" else toFixed1 (value / total * 100) ++ "%"

/-- Modelled from the spec: the fixed revenue taxonomy (§6); the Item
Validator source is not under `src/`. -/
def revenueCategories : List String :=
  ["Personal taxes", "Corporate taxes", "Taxes on purchases",
   "Social security contributions", "Other revenue"]

/-- Modelled from the spec: the fixed expense taxonomy (§6); the Item
Validator source is not under `src/`. -/
def expenseCategories : List String :=
  ["Health", "Education", "Pensions & social support",
   "Running the government", "Security & defense", "Justice",
   "Infrastructure & environment", "Public debt"]

/-- Modelled from the spec: membership of a category in the taxonomy for
the stated side (Item Validator check (a), §4.3). -/
def categoryOk (side category : String) : Bool :=
  if side = "REVENUE" then revenueCategories.contains category
  else if side = "EXPENSE" then expenseCategories.contains category
  else false

/-- Modelled from the spec: a validation rejection reason (§4.3). -/
inductive RejectionReason where
  | UnknownCategory
  | PageOutOfRange
  | EvidenceNotFound
  | MissingField
deriving DecidableEq

/-- The page of a document identified by a 1-based page number
(spec §3: page number unique per document). -/
def pageAt (pages : List Page) (n : Nat) : Option Page :=
  pages.find? (fun p => p.page_number == n)

/-- Evidence check on a candidate item: the evidence excerpt is non-empty
and occurs character-for-character in the text of the source page. -/
def evidenceOk (item : BudgetItem) (pages : List Page) : Bool :=
  match pageAt pages item.page_number with
  | none => false
  | some p =>
      !item.evidence_text.isEmpty
        && decide (item.evidence_text.data <:+: p.text.data)

/-- Modelled from the spec: the Item Validator (§4.3), whose source is not
under `src/`.  Checks in order: (a) category belongs to the taxonomy for
the stated side, (b) the source page number is within the document's page
range, (c) if the value is non-null, the evidence text is a non-empty
literal substring of that page's text, (d) description and explanation
are non-empty.  Only items it accepts are ever persisted. -/
def validate (item : BudgetItem) (pages : List Page) :
    Except RejectionReason BudgetItem :=
  if !categoryOk item.side item.category then
    .error .UnknownCategory
  else if !(1 ≤ item.page_number && item.page_number ≤ pages.length
            && (pageAt pages item.page_number).isSome) then
    .error .PageOutOfRange
  else if item.value.isSome && !evidenceOk item pages then
    .error .EvidenceNotFound
  else if item.description_original.isEmpty || item.explanation.isEmpty then
    .error .MissingField
  else
    .ok item

/-- JavaScript `x || 0` on a nullable number: `null` and `0` are falsy
and yield `0`; any other number is returned unchanged. -/
def jsOrZero (v : Option ℚ) : ℚ :=
  match v with
  | none => 0
  | some x => if x = 0 then 0 else x

/-- The category-page total from
`src/frontend/app/documents/[id]/category/[category]/page.tsx` (line 64):
`items.reduce((sum, item) => sum + (item.value || 0), 0)`. -/
def totalReduce (items : List BudgetItem) : ℚ :=
  items.foldl (fun sum item => sum + jsOrZero item.value) 0

/-- Modelled from the spec: the Aggregator (§4.5) sums `value` treating
null as 0, grouped by side; its source is not under `src/`. -/
def sideTotal (items : List BudgetItem) (side : String) : ℚ :=
  ((items.filter (fun i => i.side == side)).map
    (fun i => i.value.getD 0)).sum

/-- Items of a document belonging to one side and category. -/
def itemsOf (items : List BudgetItem) (side cat : String) :
    List BudgetItem :=
  items.filter (fun i => i.side == side && i.category == cat)

/-- Modelled from the spec: the Aggregator's per-category total (§4.5),
summing `value` with null treated as 0. -/
def categoryTotalValue (items : List BudgetItem) (side cat : String) : ℚ :=
  ((itemsOf items side cat).map (fun i => i.value.getD 0)).sum

/-- Modelled from the spec: the Aggregator's per-category item count
(§4.5), which includes items whose value is null. -/
def categoryItemCount (items : List BudgetItem) (side cat : String) : Nat :=
  (itemsOf items side cat).length

/-- Whether an import job is non-terminal, from `DocumentPage` in
`src/unnamed/part_001` (line 117):
`j.status === 'PENDING' || j.status === 'RUNNING'`. -/
def isActiveJob (j : ImportJob) : Bool :=
  j.status == "PENDING" || j.status == "RUNNING"

/-- First non-terminal job of a document's job list, from
`src/unnamed/part_001` (line 117):
`jobs.find(j => j.status === 'PENDING' || j.status === 'RUNNING')`. -/
def activeJob (jobs : List ImportJob) : Option ImportJob :=
  jobs.find? isActiveJob

/-- Modelled from the spec: at most one `PENDING`/`RUNNING` job exists per
document (§3, §4.4); the Job Orchestrator source is not under `src/`. -/
def atMostOneActive (jobs : List ImportJob) : Prop :=
  (jobs.filter isActiveJob).length ≤ 1

/-- Modelled from the spec: ImportJob status values (§4.4); the Job
Orchestrator source is not under `src/`. -/
inductive JobStatus where
  | pending
  | running
  | completed
  | failed
deriving DecidableEq, Fintype

/-- Modelled from the spec: `PENDING` is the initial state set at job
creation (§4.4). -/
def initialStatus : JobStatus := .pending

/-- Terminal statuses are `COMPLETED` and `FAILED` (§4.4). -/
def isTerminal : JobStatus → Bool
  | .completed => true
  | .failed => true
  | _ => false

/-- Modelled from the spec: the admissible status transitions of the Job
Orchestrator state machine, `PENDING → RUNNING → COMPLETED | FAILED`
(§4.4). -/
def jobStepOk : JobStatus → JobStatus → Bool
  | .pending, .running => true
  | .running, .completed => true
  | .running, .failed => true
  | _, _ => false

/-- Status and progress of one import job. -/
structure JobState where
  status : JobStatus
  progress : Nat
deriving DecidableEq

/-- Modelled from the spec: a fresh job starts `PENDING` with progress 0
(§3, §4.4). -/
def initialJobState : JobState := ⟨.pending, 0⟩

/-- Modelled from the spec: one observable update of a job by the Job
Orchestrator (§4.4), whose source is not under `src/`.  A worker claims a
`PENDING` job; stage completion advances progress monotonically while the
job runs, strictly below 100 until the final persistence stage; finishing
sets `COMPLETED` at progress 100; a document-level fault sets `FAILED`
without touching progress. -/
inductive OrchStep : JobState → JobState → Prop
  | claim (p : Nat) : OrchStep ⟨.pending, p⟩ ⟨.running, p⟩
  | advance (p q : Nat) : p ≤ q → q < 100 →
      OrchStep ⟨.running, p⟩ ⟨.running, q⟩
  | complete (p : Nat) : OrchStep ⟨.running, p⟩ ⟨.completed, 100⟩
  | fault (p : Nat) : OrchStep ⟨.running, p⟩ ⟨.failed, p⟩

/-- States a job can be in during its lifetime, starting from creation. -/
def ReachableJob (s : JobState) : Prop :=
  Relation.ReflTransGen OrchStep initialJobState s

/-- Lifetime invariant of a job state: a completed job sits at progress
100 and every other status sits strictly below 100. -/
def jobInv (s : JobState) : Prop :=
  (s.status = JobStatus.completed → s.progress = 100) ∧
    (s.status ≠ JobStatus.completed → s.progress < 100)

/-- Sort keys accepted by `getItemsByCategory`. -/
inductive SortKey where
  | value
  | page_number
  | description
deriving DecidableEq

/-- The sort keys offered by the category page's select control, from
`src/frontend/app/documents/[id]/category/[category]/page.tsx`
(lines 85-93): option values `value`, `page_number`, `description`. -/
def clientSortKeys : List String := ["value", "page_number", "description"]

/-- Translation of a query-string sort key to a `SortKey`. -/
def sortKeyOfString (s : String) : Option SortKey :=
  if s = "value" then some .value
  else if s = "page_number" then some .page_number
  else if s = "description" then some .description
  else none

/-- Ordering for the `value` sort key: value descending, null treated
as 0. -/
def valueDescR (a b : BudgetItem) : Prop := b.value.getD 0 ≤ a.value.getD 0

/-- Ordering for the `page_number` sort key: page number ascending. -/
def pageAscR (a b : BudgetItem) : Prop := a.page_number ≤ b.page_number

/-- Ordering for the `description` sort key: description lexicographic. -/
def descrLexR (a b : BudgetItem) : Prop :=
  a.description_original ≤ b.description_original

instance : DecidableRel valueDescR :=
  fun a b => inferInstanceAs (Decidable (_ ≤ _))

instance : DecidableRel pageAscR :=
  fun a b => inferInstanceAs (Decidable (_ ≤ _))

instance : DecidableRel descrLexR :=
  fun a b => inferInstanceAs (Decidable (_ ≤ _))

instance : IsTotal BudgetItem valueDescR :=
  ⟨fun a b => le_total (b.value.getD 0) (a.value.getD 0)⟩

instance : IsTrans BudgetItem valueDescR :=
  ⟨fun _ _ _ h1 h2 => le_trans h2 h1⟩

instance : IsTotal BudgetItem pageAscR :=
  ⟨fun a b => le_total a.page_number b.page_number⟩

instance : IsTrans BudgetItem pageAscR :=
  ⟨fun _ _ _ h1 h2 => le_trans h1 h2⟩

instance : IsTotal BudgetItem descrLexR :=
  ⟨fun a b => le_total a.description_original b.description_original⟩

instance : IsTrans BudgetItem descrLexR :=
  ⟨fun _ _ _ h1 h2 => le_trans h1 h2⟩

/-- Sorting of a category's items by the requested key. -/
def sortItems (k : SortKey) (l : List BudgetItem) : List BudgetItem :=
  match k with
  | .value => l.insertionSort valueDescR
  | .page_number => l.insertionSort pageAscR
  | .description => l.insertionSort descrLexR

/-- Modelled from the spec: `getItemsByCategory` (§6) returns the
document's items of the requested category ordered by the requested sort
key; its backend source is not under `src/`. -/
def getItemsByCategory (items : List BudgetItem) (cat : String)
    (k : SortKey) : List BudgetItem :=
  sortItems k (items.filter (fun i => i.category == cat))

/-- Ordering used by the dashboard's category lists: total value
descending, from the comparator `(a, b) => b.total_value - a.total_value`
in `src/unnamed/part_001` (lines 194-196 and 228-230). -/
def tvDescR (a b : CategorySummary) : Prop := b.total_value ≤ a.total_value

instance : DecidableRel tvDescR :=
  fun a b => inferInstanceAs (Decidable (_ ≤ _))

instance : IsTotal CategorySummary tvDescR :=
  ⟨fun a b => le_total b.total_value a.total_value⟩

instance : IsTrans CategorySummary tvDescR :=
  ⟨fun _ _ _ h1 h2 => le_trans h2 h1⟩

/-- The dashboard's descending-by-total sort of a category list, from
`.sort((a, b) => b.total_value - a.total_value)` in
`src/unnamed/part_001`. -/
def sortByTotalDesc (l : List CategorySummary) : List CategorySummary :=
  l.insertionSort tvDescR

/-- The revenue category list as displayed by `DocumentPage`. -/
def revenueDisplayed (s : DocumentSummary) : List CategorySummary :=
  sortByTotalDesc s.revenue_by_category

/-- The expense category list as displayed by `DocumentPage`. -/
def expenseDisplayed (s : DocumentSummary) : List CategorySummary :=
  sortByTotalDesc s.expense_by_category

/-- Concrete candidate item used to exercise the validator. -/
def wItem : BudgetItem :=
  ⟨"i1", "d1", 2024, "EXPENSE", "Health", "Total Health spending",
   some 500, "EUR", 1, "500 EUR", "total health spending for the year"⟩

/-- Concrete page list used to exercise the validator. -/
def wPages : List Page := [⟨1, "Total Health spending: 500 EUR"⟩]

/-- Concrete job list used to exercise the active-job selection. -/
def wJobs : List ImportJob :=
  [⟨"j0", "COMPLETED", 100, none⟩, ⟨"j1", "RUNNING", 40, none⟩]

/-! ### Helper lemmas -/

/-- The euro sign occurs in every rendered euro amount. -/
theorem euro_mem_eurChars (v : ℚ) : '€' ∈ eurChars v := by
  unfold eurChars
  simp [List.mem_append]

/-- A rendered euro amount is never the string `N/A`. -/
theorem formatEUR_ne_NA (v : ℚ) : formatEUR v ≠ "N/A" := by
  intro h
  have hd : eurChars v = "N/A".data := congrArg String.data h
  have hm := euro_mem_eurChars v
  rw [hd] at hm
  exact absurd hm (by decide)

/-- A stored value of exactly 0 renders as the currency string `0 €`. -/
theorem formatEUR_zero : formatEUR (0 : ℚ) = "0 €" := by
  have h : round (0 : ℚ) = 0 := round_zero
  unfold formatEUR eurChars
  rw [h]
  decide

/-- Concrete evaluation of the one-decimal rendering at 50. -/
theorem toFixed1_fifty : toFixed1 ((100 : ℚ) * 1 / 2) = "50.0" := by
  have h1 : (100 : ℚ) * 1 / 2 = 50 := by norm_num
  have h2 : round (|(50 : ℚ)| * 10) = 500 := by rw [round_eq]; norm_num
  have h3 : ¬((50 : ℚ) < 0) := by norm_num
  rw [h1]
  simp only [toFixed1]
  rw [h2, if_neg h3]
  decide

/-! ### Claim theorems -/

/-- C10: `getSideLabel` is total and returns `RECEITA` exactly when the
side is the string `REVENUE`; every other input, malformed ones included,
yields `DESPESA` rather than an error. -/
theorem getSideLabel_total (s : String) :
    (getSideLabel s = "RECEITA" ↔ s = "REVENUE") ∧
      (getSideLabel s = "RECEITA" ∨ getSideLabel s = "DESPESA") := by
  unfold getSideLabel
  by_cases h : s = "REVENUE" <;> simp [h]

/-- C7: the rendered monetary amount is `N/A` exactly when the item's
value is null, and a stored value of exactly 0 renders as the currency
string `0 €`, so null is never shown as zero and zero never as
missing. -/
theorem formatCurrency_NA_iff (v : Option ℚ) (u : String) :
    (formatCurrency v u = "N/A" ↔ v = none) ∧
      formatCurrency (some 0) u = "0 €" := by
  refine ⟨⟨fun h => ?_, fun h => ?_⟩, ?_⟩
  · cases v with
    | none => rfl
    | some x => exact absurd h (formatEUR_ne_NA x)
  · subst h; rfl
  · exact formatEUR_zero

/-- C8: the displayed percentage is the string `0%` when the side total
is 0, and otherwise is `100·v/t` rendered to one decimal place; the
division is taken only under the hypothesis that the total is
non-zero. -/
theorem formatPercentage_spec (v t : ℚ) :
    (t = 0 → formatPercentage v t = "0%") ∧
      (t ≠ 0 → formatPercentage v t = toFixed1 (100 * v / t) ++ "%") := by
  constructor
  · intro h
    simp [formatPercentage, h]
  · intro h
    have hc : v / t * 100 = 100 * v / t := by ring
    simp [formatPercentage, h, hc]

/-- Witness for C8 at concrete inputs: a zero total renders `0%` and the
pair (1, 2) renders `50.0%`. -/
theorem formatPercentage_spec_witness :
    formatPercentage 3 0 = "0%" ∧
      formatPercentage 1 2 = toFixed1 (100 * 1 / 2) ++ "%" ∧
      toFixed1 ((100 : ℚ) * 1 / 2) ++ "%" = "50.0%" :=
  ⟨(formatPercentage_spec 3 0).1 rfl,
   (formatPercentage_spec 1 2).2 (by norm_num),
   by rw [toFixed1_fifty]; decide⟩

/-- Summing values with null treated as 0 equals summing the non-null
values only. -/
theorem sum_getD_eq_sum_filterMap (l : List BudgetItem) :
    (l.map (fun i => i.value.getD 0)).sum
      = (l.filterMap (fun i => i.value)).sum := by
  induction l with
  | nil => rfl
  | cons i rest ih =>
    cases h : i.value with
    | none => simp [List.filterMap_cons, h, ih]
    | some x => simp [List.filterMap_cons, h, ih]

/-- JavaScript `x || 0` coincides with replacing null by 0. -/
theorem jsOrZero_eq_getD (v : Option ℚ) : jsOrZero v = v.getD 0 := by
  cases v with
  | none => rfl
  | some x => by_cases h : x = 0 <;> simp [jsOrZero, h]

/-- A left fold accumulating a mapped sum equals the mapped sum. -/
theorem foldl_add_map_sum (f : BudgetItem → ℚ) (l : List BudgetItem)
    (a : ℚ) : l.foldl (fun s i => s + f i) a = a + (l.map f).sum := by
  induction l generalizing a with
  | nil => simp
  | cons i rest ih => simp [ih, add_assoc]

/-- A list splits into the elements satisfying a predicate and those
failing it. -/
theorem length_filter_split (p : BudgetItem → Bool) (l : List BudgetItem) :
    l.length = (l.filter p).length
      + (l.filter (fun i => !p i)).length := by
  induction l with
  | nil => rfl
  | cons i rest ih =>
    by_cases h : p i <;> simp [List.filter_cons, h, ih] <;> omega

/-- C2: the computed total for a side or category is exactly the sum of
the non-null values of the matching items (null contributing 0), the
category page's reduce computes the same sum, and the item count splits
as non-null items plus null items, so null items are counted. -/
theorem aggregator_totals_spec (items : List BudgetItem)
    (side cat : String) :
    sideTotal items side
        = ((items.filter (fun i => i.side == side)).filterMap
            (fun i => i.value)).sum ∧
      categoryTotalValue items side cat
        = ((itemsOf items side cat).filterMap (fun i => i.value)).sum ∧
      totalReduce items = (items.filterMap (fun i => i.value)).sum ∧
      categoryItemCount items side cat
        = ((itemsOf items side cat).filter
            (fun i => i.value.isSome)).length
          + ((itemsOf items side cat).filter
              (fun i => i.value == none)).length := by
  refine ⟨?_, ?_, ?_, ?_⟩
  · exact sum_getD_eq_sum_filterMap _
  · exact sum_getD_eq_sum_filterMap _
  · rw [totalReduce, foldl_add_map_sum, zero_add]
    simp only [jsOrZero_eq_getD]
    exact sum_getD_eq_sum_filterMap _
  · have hfe : (fun i : BudgetItem => i.value == none)
        = (fun i : BudgetItem => !i.value.isSome) := by
      funext i; cases i.value <;> rfl
    rw [categoryItemCount, hfe]
    exact length_filter_split _ _

/-- A string whose `isEmpty` test is false is not the empty string. -/
theorem ne_empty_of_isEmpty_false {s : String} (h : s.isEmpty = false) :
    s ≠ "" := by
  intro hn
  subst hn
  exact absurd h (by decide)

/-- C1: every item the validator accepts (and only accepted items are
ever persisted and served by the read endpoints) with a non-null value
carries a non-empty evidence excerpt occurring character-for-character in
the text of the page identified by its source page number. -/
theorem validated_evidence_substring (item : BudgetItem)
    (pages : List Page) (hok : validate item pages = .ok item)
    (hv : item.value ≠ none) :
    ∃ p, pageAt pages item.page_number = some p ∧
      item.evidence_text ≠ "" ∧
      item.evidence_text.data <:+: p.text.data := by
  have hs : item.value.isSome = true := Option.isSome_iff_ne_none.mpr hv
  unfold validate at hok
  split at hok
  · exact Except.noConfusion hok
  · split at hok
    · exact Except.noConfusion hok
    · split at hok
      · exact Except.noConfusion hok
      · rename_i h3
        simp only [hs, Bool.true_and, Bool.not_eq_true,
          Bool.not_eq_false] at h3
        unfold evidenceOk at h3
        cases hp : pageAt pages item.page_number with
        | none => rw [hp] at h3; cases h3
        | some p =>
          rw [hp] at h3
          simp at h3
          refine ⟨p, rfl, ?_, h3.2⟩
          have h1 : item.evidence_text.isEmpty = false := by
            simpa using h3.1
          exact ne_empty_of_isEmpty_false h1

/-- Witness for C1: a concrete item citing evidence `500 EUR` on a page
whose text contains it is accepted and satisfies the invariant. -/
theorem validated_evidence_substring_witness :
    validate wItem wPages = .ok wItem ∧
      ∃ p, pageAt wPages wItem.page_number = some p ∧
        wItem.evidence_text ≠ "" ∧
        wItem.evidence_text.data <:+: p.text.data :=
  ⟨by rfl, validated_evidence_substring wItem wPages (by rfl) (by decide)⟩

/-- Any two members of a list of length at most one are equal. -/
theorem eq_of_length_le_one {α : Type} {l : List α} {a b : α}
    (h : l.length ≤ 1) (ha : a ∈ l) (hb : b ∈ l) : a = b := by
  match l with
  | [] => cases ha
  | [x] =>
    rw [List.mem_singleton] at ha hb
    rw [ha, hb]
  | x :: y :: rest => simp at h

/-- C3: under the one-active-job-per-document invariant, taking the first
`PENDING`/`RUNNING` job from a document's job list yields the unique
active job when one exists, and nothing when none exists. -/
theorem activeJob_unique (jobs : List ImportJob)
    (h : atMostOneActive jobs) :
    (activeJob jobs = none ↔ ∀ j ∈ jobs, isActiveJob j = false) ∧
      ∀ j, activeJob jobs = some j →
        j ∈ jobs ∧ isActiveJob j = true ∧
          ∀ j' ∈ jobs, isActiveJob j' = true → j' = j := by
  constructor
  · rw [activeJob, List.find?_eq_none]
    constructor
    · intro hn j hj
      simpa using hn j hj
    · intro hn j hj
      simp [hn j hj]
  · intro j hj
    have hmem : j ∈ jobs := List.mem_of_find?_eq_some hj
    have hact : isActiveJob j = true := List.find?_some hj
    refine ⟨hmem, hact, fun j' hj' hact' => ?_⟩
    have hf : j ∈ jobs.filter isActiveJob := List.mem_filter.mpr ⟨hmem, hact⟩
    have hf' : j' ∈ jobs.filter isActiveJob :=
      List.mem_filter.mpr ⟨hj', hact'⟩
    exact eq_of_length_le_one h hf' hf

/-- Witness for C3: in a list with one terminal and one running job, the
running job is found, is a member, and is active. -/
theorem activeJob_unique_witness :
    (⟨"j1", "RUNNING", 40, none⟩ : ImportJob) ∈ wJobs ∧
      isActiveJob ⟨"j1", "RUNNING", 40, none⟩ = true :=
  ⟨((activeJob_unique wJobs (by unfold atMostOneActive; decide)).2
      ⟨"j1", "RUNNING", 40, none⟩ (by decide)).1,
   ((activeJob_unique wJobs (by unfold atMostOneActive; decide)).2
      ⟨"j1", "RUNNING", 40, none⟩ (by decide)).2.1⟩

/-- C4: the job state machine starts at `PENDING`, enters `RUNNING` only
from `PENDING` (a worker claim), admits only the transitions of the chain
`PENDING → RUNNING → COMPLETED | FAILED`, and admits no transition out of
a terminal status. -/
theorem jobStatus_chain :
    initialStatus = JobStatus.pending ∧
      (∀ s, jobStepOk s JobStatus.running = true → s = JobStatus.pending) ∧
      (∀ s t, jobStepOk s t = true → isTerminal s = false) ∧
      (∀ s t, jobStepOk s t = true →
        (s = JobStatus.pending ∧ t = JobStatus.running) ∨
          (s = JobStatus.running ∧
            (t = JobStatus.completed ∨ t = JobStatus.failed))) := by
  refine ⟨rfl, ?_, ?_, ?_⟩ <;> decide

/-- Witness for C4: the transition `RUNNING → COMPLETED` is admissible
and its source is not terminal. -/
theorem jobStatus_chain_witness :
    jobStepOk JobStatus.running JobStatus.completed = true ∧
      isTerminal JobStatus.running = false :=
  ⟨by decide,
   jobStatus_chain.2.2.1 JobStatus.running JobStatus.completed (by decide)⟩

/-- One orchestrator step preserves the job-state invariant. -/
theorem jobInv_step {s t : JobState} (hs : jobInv s) (h : OrchStep s t) :
    jobInv t := by
  cases h with
  | claim p =>
    exact ⟨fun hc => JobStatus.noConfusion hc,
      fun _ => hs.2 (fun hc => JobStatus.noConfusion hc)⟩
  | advance p q hpq hq =>
    exact ⟨fun hc => JobStatus.noConfusion hc, fun _ => hq⟩
  | complete p =>
    exact ⟨fun _ => rfl, fun hn => absurd rfl hn⟩
  | fault p =>
    exact ⟨fun hc => JobStatus.noConfusion hc,
      fun _ => hs.2 (fun hc => JobStatus.noConfusion hc)⟩

/-- The job-state invariant holds along any run of orchestrator steps. -/
theorem jobInv_rtg {s t : JobState} (hs : jobInv s)
    (h : Relation.ReflTransGen OrchStep s t) : jobInv t := by
  induction h with
  | refl => exact hs
  | tail _ hstep ih => exact jobInv_step ih hstep

/-- One orchestrator step never decreases progress, given the
invariant. -/
theorem orchStep_mono {s t : JobState} (hs : jobInv s) (h : OrchStep s t) :
    s.progress ≤ t.progress := by
  cases h with
  | claim p => exact le_refl p
  | advance p q hpq _ => exact hpq
  | complete p =>
    exact le_of_lt (hs.2 (fun hc => JobStatus.noConfusion hc))
  | fault p => exact le_refl p

/-- Progress never decreases along a run of orchestrator steps, given
the invariant at the start. -/
theorem rtg_mono {s t : JobState} (hs : jobInv s)
    (h : Relation.ReflTransGen OrchStep s t) :
    s.progress ≤ t.progress := by
  induction h with
  | refl => exact le_refl _
  | tail hab hbc ih => exact le_trans ih (orchStep_mono (jobInv_rtg hs hab) hbc)

/-- C5: within one job's lifetime every successive recorded progress
value is at least the previous one, and a reachable job state with
progress 100 must have status `COMPLETED`. -/
theorem job_progress_monotone :
    (∀ s t, ReachableJob s → Relation.ReflTransGen OrchStep s t →
        s.progress ≤ t.progress) ∧
      ∀ s, ReachableJob s → s.progress = 100 →
        s.status = JobStatus.completed := by
  have hinit : jobInv initialJobState :=
    ⟨fun hc => JobStatus.noConfusion hc, fun _ => by decide⟩
  constructor
  · intro s t hr hst
    exact rtg_mono (jobInv_rtg hinit hr) hst
  · intro s hr h100
    by_contra hne
    have hlt := (jobInv_rtg hinit hr).2 hne
    omega

/-- Witness for C5: a claimed job advanced to progress 10 and later
completed at 100 has non-decreasing progress across those updates. -/
theorem job_progress_monotone_witness :
    JobState.progress ⟨JobStatus.running, 10⟩
      ≤ JobState.progress ⟨JobStatus.completed, 100⟩ :=
  job_progress_monotone.1 ⟨JobStatus.running, 10⟩
    ⟨JobStatus.completed, 100⟩
    (Relation.ReflTransGen.tail
      (Relation.ReflTransGen.single (OrchStep.claim 0))
      (OrchStep.advance 0 10 (by decide) (by decide)))
    (Relation.ReflTransGen.single (OrchStep.complete 10))

/-- C6: the items-by-category query returns exactly the items of the
requested category, ordered by the requested key — value descending,
page number ascending, or description lexicographic — and the client's
select control offers exactly the keys the query mapping accepts. -/
theorem itemsByCategory_spec (items : List BudgetItem) (cat : String)
    (k : SortKey) (s : String) :
    (getItemsByCategory items cat k).Perm
        (items.filter (fun i => i.category == cat)) ∧
      (getItemsByCategory items cat SortKey.value).Sorted valueDescR ∧
      (getItemsByCategory items cat SortKey.page_number).Sorted pageAscR ∧
      (getItemsByCategory items cat SortKey.description).Sorted descrLexR ∧
      (sortKeyOfString s).isSome = clientSortKeys.contains s := by
  refine ⟨?_, ?_, ?_, ?_, ?_⟩
  · cases k with
    | value => exact List.perm_insertionSort valueDescR _
    | page_number => exact List.perm_insertionSort pageAscR _
    | description => exact List.perm_insertionSort descrLexR _
  · exact List.sorted_insertionSort valueDescR _
  · exact List.sorted_insertionSort pageAscR _
  · exact List.sorted_insertionSort descrLexR _
  · by_cases h1 : s = "value" <;> by_cases h2 : s = "page_number" <;>
      by_cases h3 : s = "description" <;>
      simp [sortKeyOfString, clientSortKeys, h1, h2, h3]

/-- C9: the dashboard's revenue and expense per-category lists are each
displayed in non-increasing order of total value, whatever order the
summary response delivered them in. -/
theorem dashboard_sorted (s : DocumentSummary) :
    (revenueDisplayed s).Sorted tvDescR ∧
      (revenueDisplayed s).Perm s.revenue_by_category ∧
      (expenseDisplayed s).Sorted tvDescR ∧
      (expenseDisplayed s).Perm s.expense_by_category :=
  ⟨List.sorted_insertionSort tvDescR _, List.perm_insertionSort tvDescR _,
   List.sorted_insertionSort tvDescR _, List.perm_insertionSort tvDescR _⟩

end Orcamento
